import Mathlib

/-!
Verification development for the Wikibase spreadsheet synchronizer
(`wikibase_data_processor.py`) and the SPARQL person-search helper
(`search_person_by_name.py`).

The Python code is shallowly embedded: spreadsheet cells become the
`Cell` type (a Python value that is either null/NaN, a string, an
integer, or a datetime), the Wikibase handler's mutable state (the
reconciliation cache plus the remote store it talks to) becomes the
explicit `WBState` record threaded through every operation, and each
operation additionally returns the list of calls it performed
(`WBCall`), so that "no remote call happens" is a provable statement.
Exceptions are modelled with `Except`.
-/

set_option maxHeartbeats 1000000

/-- A Python value sitting in a spreadsheet cell (or in the gathered
properties dictionary). `none` stands for null/NaN, for which
`pd.isnull` is true; the other constructors carry the values the
processor actually handles: strings, integers, and datetimes. -/
inductive Cell where
  | none
  | str (s : String)
  | int (n : Int)
  | date (day month year hour minute second : Nat)
deriving DecidableEq, Repr

/-- Python truthiness of a cell value, as used by the bare
`if properties[...]:` tests in `_create_statements`: null is falsy,
a string is truthy iff nonempty, an integer is truthy iff nonzero,
a datetime object is always truthy. -/
def truthy : Cell → Bool
  | Cell.none => false
  | Cell.str s => !s.data.isEmpty
  | Cell.int n => n != 0
  | Cell.date _ _ _ _ _ _ => true

/-- Python `str(...)` on the cell values the processor passes to it
(`str` of a string is the string itself, `str` of an integer is its
decimal representation). The datetime case is never reached by the
code paths modelled here. -/
def pyStr : Cell → String
  | Cell.none => "None"
  | Cell.str s => s
  | Cell.int n => toString n
  | Cell.date d m y _ _ _ => toString d ++ "-" ++ toString m ++ "-" ++ toString y

/-- A typed Wikibase statement, one constructor per `wdi_core` value
class used by the source (`WDItemID`, `WDTime`, `WDString`,
`WDExternalID`, `WDQuantity`, `WDUrl`), carrying the raw value it was
constructed from and the target property identifier. -/
inductive Statement where
  | itemID (value : Cell) (propNr : String)
  | time (value : Cell) (propNr : String)
  | string (value : Cell) (propNr : String)
  | externalID (value : Cell) (propNr : String)
  | quantity (value : Cell) (propNr : String)
  | url (value : Cell) (propNr : String)
deriving DecidableEq, Repr

/-- The property identifier a statement is attached to. -/
def Statement.propNr : Statement → String
  | .itemID _ p => p
  | .time _ p => p
  | .string _ p => p
  | .externalID _ p => p
  | .quantity _ p => p
  | .url _ p => p

/-- Whether a statement is an item reference (`WDItemID`). -/
def Statement.isItemRef : Statement → Bool
  | .itemID _ _ => true
  | _ => false

/-- One item of the remote Wikibase store: its id, its English label,
and the statements that have been written to it. -/
structure RItem where
  id : String
  label : String
  stmts : List Statement
deriving DecidableEq, Repr

/-- The remote Wikibase store, modelled as the list of its items plus
a counter supplying fresh item ids. -/
structure Remote where
  items : List RItem
  nextId : Nat
deriving DecidableEq, Repr

/-- The state owned by `WikibaseHandler`: the reconciliation cache
(a dictionary from display name to item id, modelled as an
association list) and the remote store reached through its api url. -/
structure WBState where
  cache : List (String × String)
  remote : Remote
deriving DecidableEq, Repr

/-- A call performed while processing: entering the resolver
(`get_or_create_item`), or one of the remote API operations. Only the
latter three are network traffic. -/
inductive WBCall where
  | resolveCall (name : String) (kind : Nat)
  | searchRemote (label : String)
  | createItem (label : String) (id : String)
  | writeData (id : String) (stmts : List Statement)
deriving DecidableEq, Repr

/-- Whether a call reaches the remote store (search, create/label/write,
or statement write) as opposed to a mere resolver entry. -/
def WBCall.isRemote : WBCall → Bool
  | .resolveCall _ _ => false
  | _ => true

/-- Whether a call is a resolver entry, recording the name and kind
passed to `get_or_create_item`. -/
def WBCall.isResolve : WBCall → Bool
  | .resolveCall _ _ => true
  | _ => false

/-- `WDItemEngine.get_wd_search_results`, modelled as a label lookup:
the ids of the remote items whose label equals the query, in store
order. -/
def search_results (r : Remote) (label : String) : List String :=
  (r.items.filter (fun it => it.label = label)).map (fun it => it.id)

/-- Appending freshly written statements to the remote item with the
given id (the additive `write` of a `WDItemEngine` constructed with
`wd_item_id=...` and `data=...`). -/
def remote_write (r : Remote) (id : String) (stmts : List Statement) : Remote :=
  { r with items := r.items.map (fun it =>
      if it.id = id then { it with stmts := it.stmts ++ stmts } else it) }

/-- Item type tag `RESEARCH_ARTICLE` of `WikibaseHandler`. -/
def RESEARCH_ARTICLE : Nat := 1

/-- Item type tag `AUTHOR` of `WikibaseHandler`. -/
def AUTHOR : Nat := 2

/-- The baseline statement written by `_add_research_article_statements`
(instance of: research article). -/
def research_article_baseline : List Statement :=
  [Statement.itemID (Cell.str "Q2") "20"]

/-- The baseline statement written by `_add_author_statements`
(instance of: human). -/
def author_baseline : List Statement :=
  [Statement.itemID (Cell.str "Q1") "20"]

/-- `WikibaseHandler.get_or_create_item(title, item_type)`. Returns the
resolved id, the new handler state, and the calls performed: a cache
hit returns the cached id at once; otherwise the remote store is
searched for the label and, when the search finds items, the first id
is returned as is; otherwise a new item is created with a fresh id,
its label is set and written, kind-specific baseline statements are
attached for `RESEARCH_ARTICLE` and `AUTHOR`, and the fresh id is
cached under the title. -/
def get_or_create_item (s : WBState) (title : String) (item_type : Nat := 0) :
    String × WBState × List WBCall :=
  match s.cache.lookup title with
  | some qid => (qid, s, [WBCall.resolveCall title item_type])
  | Option.none =>
    match search_results s.remote title with
    | qid :: _ => (qid, s, [WBCall.resolveCall title item_type, WBCall.searchRemote title])
    | [] =>
      let qid := "Q" ++ toString s.remote.nextId
      let rem1 : Remote :=
        { items := s.remote.items ++ [{ id := qid, label := title, stmts := [] }],
          nextId := s.remote.nextId + 1 }
      let baseline : List Statement :=
        if item_type = RESEARCH_ARTICLE then research_article_baseline
        else if item_type = AUTHOR then author_baseline
        else []
      let rem2 := if baseline = [] then rem1 else remote_write rem1 qid baseline
      let baselineCalls : List WBCall :=
        if baseline = [] then [] else [WBCall.writeData qid baseline]
      (qid,
       { cache := (title, qid) :: s.cache, remote := rem2 },
       [WBCall.resolveCall title item_type, WBCall.searchRemote title,
        WBCall.createItem title qid] ++ baselineCalls)

/-- A cache hit leaves the resolver with only its entry event: no
search, create, label-set or write call is performed and the state is
untouched. -/
theorem get_or_create_item_cache_hit (s : WBState) (name : String) (kind : Nat)
    (qid : String) (h : s.cache.lookup name = some qid) :
    get_or_create_item s name kind = (qid, s, [WBCall.resolveCall name kind]) := by
  simp [get_or_create_item, h]

/-- Python substring membership `pat in s`, over character lists. -/
def py_in (pat : List Char) : List Char → Bool
  | [] => pat.isEmpty
  | c :: rest => pat.isPrefixOf (c :: rest) || py_in pat rest

/-- Whether `s` contains `pat` as a substring (Python `pat in s`). -/
def containsSub (s pat : String) : Bool := py_in pat.toList s.toList

/-- Characters admissible in a URL scheme, after the first
(`urllib.parse.scheme_chars`). -/
def scheme_char (c : Char) : Bool := c.isAlphanum || c = '+' || c = '-' || c = '.'

/-- Dropping a leading `scheme:` from a URL if its prefix before the
first colon is a wellformed scheme, as `urllib.parse.urlsplit` does. -/
def drop_scheme (l : List Char) : List Char :=
  match l.span (fun c => c ≠ ':') with
  | (before, ':' :: after) =>
    if !before.isEmpty && (before.headD ' ').isAlpha && before.all scheme_char
    then after else l
  | _ => l

/-- Dropping the `//netloc` part if present (everything after `//` up
to the first `/`, `?` or `#`), as `urllib.parse.urlsplit` does. -/
def drop_netloc (l : List Char) : List Char :=
  match l with
  | '/' :: '/' :: rest => rest.dropWhile (fun c => c ≠ '/' && c ≠ '?' && c ≠ '#')
  | _ => l

/-- Splitting off the `;params` suffix of the last path segment, as
`urllib.parse.urlparse` does after `urlsplit`. -/
def drop_params (l : List Char) : List Char :=
  if '/' ∈ l then
    let r := l.reverse
    let afterRev := r.takeWhile (fun c => c ≠ '/')
    let beforeRev := r.dropWhile (fun c => c ≠ '/')
    beforeRev.reverse ++ afterRev.reverse.takeWhile (fun c => c ≠ ';')
  else l.takeWhile (fun c => c ≠ ';')

/-- The `path` component of `urllib.parse.urlparse`: strip the scheme,
the network location, the fragment, the query, and the params. -/
def urlparse_path (l : List Char) : List Char :=
  drop_params (((drop_netloc (drop_scheme l)).takeWhile (fun c => c ≠ '#')).takeWhile
    (fun c => c ≠ '?'))

/-- `DataProcessor._extract_doi`: when the raw value contains
"doi.org", prefix "https://" unless it already starts with "http",
then return the URL path with all leading slashes stripped
(`.lstrip('/')`); otherwise return `None`. -/
def extract_doi (doi : String) : Option String :=
  if containsSub doi "doi.org" then
    let chars :=
      if ("http".toList).isPrefixOf doi.toList then doi.toList
      else ("https://".toList) ++ doi.toList
    some (String.mk ((urlparse_path chars).dropWhile (fun c => c = '/')))
  else Option.none

/-- `DataProcessor._process_url`: return the raw value unchanged when
it does not contain "doi.org", and `None` when it does. -/
def process_url (url : String) : Option String :=
  if !(containsSub url "doi.org") then some url else Option.none

/-- C3: the two DOI-related transforms are mutually exclusive on every
raw string — when the string contains "doi.org", `_extract_doi`
returns a present value and `_process_url` returns `None`; when it
does not, `_process_url` returns the input unchanged and
`_extract_doi` returns `None`. -/
theorem extract_doi_process_url_exclusive (s : String) :
    (containsSub s "doi.org" = true →
      extract_doi s ≠ Option.none ∧ process_url s = Option.none) ∧
    (containsSub s "doi.org" = false →
      process_url s = some s ∧ extract_doi s = Option.none) := by
  constructor <;> intro h <;> simp [extract_doi, process_url, h]

/-- Witness instantiating the DOI/URL exclusivity theorem on both
sides: a DOI-bearing string and a plain URL. -/
theorem extract_doi_process_url_exclusive_witness :
    (extract_doi "https://doi.org/10.1/x" ≠ Option.none ∧
      process_url "https://doi.org/10.1/x" = Option.none) ∧
    (process_url "example.com/a" = some "example.com/a" ∧
      extract_doi "example.com/a" = Option.none) :=
  ⟨(extract_doi_process_url_exclusive "https://doi.org/10.1/x").1 (by decide),
   (extract_doi_process_url_exclusive "example.com/a").2 (by decide)⟩

/-- The numeric value of a decimal digit character. -/
def digitVal (c : Char) : Nat := c.toNat - 48

/-- A two-digit numeric field match at the front of the input
(used to model the `strptime` regex alternatives with two digits). -/
def two_digit : List Char → Option (Nat × List Char)
  | a :: b :: rest =>
    if a.isDigit ∧ b.isDigit then some (10 * digitVal a + digitVal b, rest) else Option.none
  | _ => Option.none

/-- A one-digit numeric field match at the front of the input. -/
def one_digit : List Char → Option (Nat × List Char)
  | a :: rest => if a.isDigit then some (digitVal a, rest) else Option.none
  | _ => Option.none

/-- The candidate matches, in regex-alternation order, for a
`strptime` day or month field: CPython's `%d` compiles to the pattern
`3[01]|[12]\d|0[1-9]|[1-9]` (two-digit values `01`..`31`, then a
single digit `1`..`9`) and `%m` to `1[0-2]|0[1-9]|[1-9]`; with a
two-digit upper bound `hi`, both are "two digits with value between 1
and `hi`, else one digit between 1 and 9". -/
def field_candidates (hi : Nat) (l : List Char) : List (Nat × List Char) :=
  (match two_digit l with
   | some (v, r) => if 1 ≤ v ∧ v ≤ hi then [(v, r)] else []
   | Option.none => []) ++
  (match one_digit l with
   | some (v, r) => if 1 ≤ v ∧ v ≤ 9 then [(v, r)] else []
   | Option.none => [])

/-- A four-digit year consuming the entire rest of the input
(CPython's `%Y` compiles to exactly four digits, and `strptime`
requires the whole string to be matched). -/
def year4 : List Char → Option Nat
  | [a, b, c, d] =>
    if a.isDigit ∧ b.isDigit ∧ c.isDigit ∧ d.isDigit then
      some (1000 * digitVal a + 100 * digitVal b + 10 * digitVal c + digitVal d)
    else Option.none
  | _ => Option.none

/-- Regex matching of the full `"%d-%m-%Y"` pattern against a
character list, with the backtracking CPython's regex engine performs
between the two-digit and one-digit alternatives. -/
def match_dmy (l : List Char) : Option (Nat × Nat × Nat) :=
  (field_candidates 31 l).findSome? fun dv =>
    match dv.2 with
    | '-' :: r2 =>
      (field_candidates 12 r2).findSome? fun mv =>
        match mv.2 with
        | '-' :: r4 => (year4 r4).map fun y => (dv.1, mv.1, y)
        | _ => Option.none
    | _ => Option.none

/-- Gregorian leap years, as `datetime` uses them. -/
def is_leap (y : Nat) : Bool := (y % 4 = 0 && y % 100 ≠ 0) || y % 400 = 0

/-- Days in a month, as validated by the `datetime` constructor. -/
def days_in_month (y m : Nat) : Nat :=
  if m = 2 then (if is_leap y then 29 else 28)
  else if m = 4 ∨ m = 6 ∨ m = 9 ∨ m = 11 then 30 else 31

/-- `datetime.strptime(s, "%d-%m-%Y")`, returning the (day, month,
year) triple on success: the regex match of the pattern against the
whole string followed by the `datetime` constructor's validation of
the year range and of the day against the month length. -/
def strptime_dmy (s : String) : Option (Nat × Nat × Nat) :=
  match match_dmy s.toList with
  | some (d, m, y) => if 1 ≤ y ∧ d ≤ days_in_month y m then some (d, m, y) else Option.none
  | Option.none => Option.none

/-- A number printed as exactly two decimal digits, as `strftime`'s
zero-padded `%d`/`%m`/`%H`/`%M`/`%S` directives do for their value
ranges. -/
def pad2 (n : Nat) : String := String.mk [Nat.digitChar (n / 10 % 10), Nat.digitChar (n % 10)]

/-- A number printed as exactly four decimal digits, as `strftime`'s
`%Y` does for the years `datetime` admits (the documented rendering is
zero-padded: 0001, 0002, ..., 9999). -/
def pad4 (n : Nat) : String :=
  String.mk [Nat.digitChar (n / 1000 % 10), Nat.digitChar (n / 100 % 10),
    Nat.digitChar (n / 10 % 10), Nat.digitChar (n % 10)]

/-- The argument `_format_date` receives: either a `datetime` object
(as produced by the spreadsheet reader for date cells) or a raw
string. -/
inductive DateInput where
  | dt (day month year hour minute second : Nat)
  | str (s : String)
deriving DecidableEq, Repr

/-- The output `strftime("+%Y-%m-%dT%H:%M:%SZ")` of the datetime
produced by `strptime` with pattern `"%d-%m-%Y"` — its time-of-day
components are always zero. -/
def timestamp_of (y m d : Nat) : String :=
  "+" ++ pad4 y ++ "-" ++ pad2 m ++ "-" ++ pad2 d ++ "T00:00:00Z"

/-- `DataProcessor._format_date`: a `datetime` argument is first
rendered with `strftime("%d-%m-%Y")`; the resulting string (or the
string argument itself) is parsed back with
`strptime(..., "%d-%m-%Y")` and rendered as an absolute timestamp,
`None` standing for the `ValueError` a failed parse raises. -/
def format_date (input : DateInput) : Option String :=
  let s :=
    match input with
    | DateInput.dt d m y _ _ _ => pad2 d ++ "-" ++ pad2 m ++ "-" ++ pad4 y
    | DateInput.str raw => raw
  (strptime_dmy s).map fun dmy => timestamp_of dmy.2.2 dmy.2.1 dmy.1

example : format_date (DateInput.str "15-03-2021") = some "+2021-03-15T00:00:00Z" := by decide
example : format_date (DateInput.str "2021/03/15") = Option.none := by decide
example : format_date (DateInput.str "5-3-2021") = some "+2021-03-05T00:00:00Z" := by decide
example : format_date (DateInput.str "31-04-2021") = Option.none := by decide
example : format_date (DateInput.str "29-02-2020") = some "+2020-02-29T00:00:00Z" := by decide
example : format_date (DateInput.str "29-02-2021") = Option.none := by decide
example : format_date (DateInput.str "15-03-2021x") = Option.none := by decide

/-- A digit character rendered by `Nat.digitChar` from a value at most
9 is a decimal digit. -/
theorem isDigit_digitChar (k : Nat) (h : k ≤ 9) : (Nat.digitChar k).isDigit = true := by
  interval_cases k <;> decide

/-- Reading back the digit character of a value at most 9 yields the
value. -/
theorem digitVal_digitChar (k : Nat) (h : k ≤ 9) : digitVal (Nat.digitChar k) = k := by
  interval_cases k <;> decide

/-- Parsing the zero-padded rendering of a valid date with the
`"%d-%m-%Y"` pattern recovers the date. -/
theorem strptime_pad_roundtrip (d m y : Nat) (hd1 : 1 ≤ d) (hd2 : d ≤ 31)
    (hm1 : 1 ≤ m) (hm2 : m ≤ 12) (hy1 : 1 ≤ y) (hy2 : y ≤ 9999)
    (hdm : d ≤ days_in_month y m) :
    strptime_dmy (pad2 d ++ "-" ++ pad2 m ++ "-" ++ pad4 y) = some (d, m, y) := by
  have hp2 : ∀ n : Nat, (pad2 n).data = [Nat.digitChar (n / 10 % 10), Nat.digitChar (n % 10)] :=
    fun _ => rfl
  have hp4 : ∀ n : Nat, (pad4 n).data = [Nat.digitChar (n / 1000 % 10), Nat.digitChar (n / 100 % 10),
      Nat.digitChar (n / 10 % 10), Nat.digitChar (n % 10)] := fun _ => rfl
  have e1 := isDigit_digitChar (d / 10 % 10) (by omega)
  have e2 := isDigit_digitChar (d % 10) (by omega)
  have e3 := isDigit_digitChar (m / 10 % 10) (by omega)
  have e4 := isDigit_digitChar (m % 10) (by omega)
  have e5 := isDigit_digitChar (y / 1000 % 10) (by omega)
  have e6 := isDigit_digitChar (y / 100 % 10) (by omega)
  have e7 := isDigit_digitChar (y / 10 % 10) (by omega)
  have e8 := isDigit_digitChar (y % 10) (by omega)
  have v1 := digitVal_digitChar (d / 10 % 10) (by omega)
  have v2 := digitVal_digitChar (d % 10) (by omega)
  have v3 := digitVal_digitChar (m / 10 % 10) (by omega)
  have v4 := digitVal_digitChar (m % 10) (by omega)
  have v5 := digitVal_digitChar (y / 1000 % 10) (by omega)
  have v6 := digitVal_digitChar (y / 100 % 10) (by omega)
  have v7 := digitVal_digitChar (y / 10 % 10) (by omega)
  have v8 := digitVal_digitChar (y % 10) (by omega)
  have hv_d : 10 * (d / 10 % 10) + d % 10 = d := by omega
  have hv_m : 10 * (m / 10 % 10) + m % 10 = m := by omega
  have hv_y : 1000 * (y / 1000 % 10) + 100 * (y / 100 % 10) + 10 * (y / 10 % 10) + y % 10 = y := by
    omega
  have hc_d : 1 ≤ d ∧ d ≤ 31 := ⟨hd1, hd2⟩
  have hc_m : 1 ≤ m ∧ m ≤ 12 := ⟨hm1, hm2⟩
  have hc_f : 1 ≤ y ∧ d ≤ days_in_month y m := ⟨hy1, hdm⟩
  simp [strptime_dmy, String.toList, hp2, hp4, match_dmy, field_candidates, two_digit, one_digit,
    year4,
    e1, e2, e3, e4, e5, e6, e7, e8, v1, v2, v3, v4, v5, v6, v7, v8,
    hv_d, hv_m, hv_y, hc_d, hc_m, hc_f, List.findSome?]

/-- The month length never exceeds 31. -/
theorem days_in_month_le (y m : Nat) : days_in_month y m ≤ 31 := by
  unfold days_in_month
  split_ifs <;> omega

/-- C4: `_format_date` maps the day-month-year string "15-03-2021" to
"+2021-03-15T00:00:00Z", raises a parse error (modelled as `none`) on
"2021/03/15", maps every valid structured datetime to the zero-padded
absolute timestamp of its date, and every value it returns at all is
an absolute UTC timestamp of the shape "+YYYY-MM-DDT00:00:00Z". -/
theorem format_date_spec :
    format_date (DateInput.str "15-03-2021") = some "+2021-03-15T00:00:00Z" ∧
    format_date (DateInput.str "2021/03/15") = Option.none ∧
    (∀ d m y hh mi ss : Nat, 1 ≤ y → y ≤ 9999 → 1 ≤ m → m ≤ 12 → 1 ≤ d →
      d ≤ days_in_month y m →
      format_date (DateInput.dt d m y hh mi ss) = some (timestamp_of y m d)) ∧
    (∀ (input : DateInput) (out : String),
      format_date input = some out → ∃ y m d, out = timestamp_of y m d) := by
  refine ⟨by decide, by decide, ?_, ?_⟩
  · intro d m y hh mi ss hy1 hy2 hm1 hm2 hd1 hdm
    have hd31 : d ≤ 31 := le_trans hdm (days_in_month_le y m)
    have := strptime_pad_roundtrip d m y hd1 hd31 hm1 hm2 hy1 hy2 hdm
    simp [format_date, this]
  · intro input out h
    unfold format_date at h
    simp only [Option.map_eq_some'] at h
    obtain ⟨dmy, _, hf⟩ := h
    exact ⟨dmy.2.2, dmy.2.1, dmy.1, hf.symm⟩

/-- Witness for the date formatter: a concrete structured datetime
(with a nonzero time of day) is normalized to the absolute UTC
midnight timestamp of its date. -/
theorem format_date_spec_witness :
    format_date (DateInput.dt 15 3 2021 7 30 5) = some "+2021-03-15T00:00:00Z" :=
  (format_date_spec.2.2.1 15 3 2021 7 30 5 (by decide) (by decide) (by decide) (by decide)
    (by decide) (by decide)).trans (by decide)

/-- `Nat.toDigitsCore` never shrinks its accumulator. -/
theorem toDigitsCore_length_ge (b : Nat) :
    ∀ (f n : Nat) (ds : List Char), ds.length ≤ (Nat.toDigitsCore b f n ds).length := by
  intro f
  induction f with
  | zero => intro n ds; simp [Nat.toDigitsCore]
  | succ f ih =>
    intro n ds
    simp only [Nat.toDigitsCore]
    split
    · simp
    · exact le_trans (by simp) (ih (n / b) (Nat.digitChar (n % b) :: ds))

/-- The digit rendering of a natural number is nonempty. -/
theorem toDigits_length_pos (b n : Nat) : 1 ≤ (Nat.toDigits b n).length := by
  unfold Nat.toDigits
  simp only [Nat.toDigitsCore]
  split
  · simp
  · simpa using toDigitsCore_length_ge b n (n / b) [Nat.digitChar (n % b)]

/-- The decimal representation of a natural number is never the empty
string. -/
theorem Nat_repr_ne_empty (n : Nat) : Nat.repr n ≠ "" := by
  intro h
  have hd : (Nat.repr n).data = [] := by rw [h]
  have : Nat.toDigits 10 n = [] := hd
  have := toDigits_length_pos 10 n
  simp_all

/-- Python `str` of an integer is never the empty string. -/
theorem toString_int_ne_empty (n : Int) : (toString n).data.isEmpty = false := by
  show (Int.repr n).data.isEmpty = false
  cases n with
  | ofNat m =>
    have := Nat_repr_ne_empty m
    simp only [Int.repr]
    rcases h : (Nat.repr m).data with _ | _
    · exact absurd (String.ext h) this
    · rfl
  | negSucc m =>
    simp [Int.repr, String.data_append]

/-- Splitting a character list at every character satisfying `p`,
keeping empty groups (the semantics of Python `str.split(sep)`). -/
def split_when (p : Char → Bool) : List Char → List (List Char)
  | [] => [[]]
  | c :: rest =>
    match split_when p rest with
    | [] => [[]]
    | g :: gs => if p c then [] :: g :: gs else (c :: g) :: gs

/-- Python `s.split(sep)` for a one-character separator: empty pieces
between consecutive separators are kept. -/
def py_split (sep : Char) (s : String) : List String :=
  (split_when (fun c => c = sep) s.toList).map String.mk

/-- Python `s.strip()`: remove leading and trailing whitespace. -/
def py_strip (s : String) : String :=
  String.mk (((s.toList.dropWhile Char.isWhitespace).reverse.dropWhile Char.isWhitespace).reverse)

/-- Python `s.split()` with no separator: split on whitespace runs and
drop the empty pieces. -/
def py_split_ws (s : String) : List String :=
  ((split_when Char.isWhitespace s.toList).filter (fun g => !g.isEmpty)).map String.mk

example : py_split ',' "Jane Doe, John Smith" = ["Jane Doe", " John Smith"] := by decide
example : py_strip " John Smith" = "John Smith" := by decide
example : py_split_ws "  Jane  Doe " = ["Jane", "Doe"] := by decide

/-- One spreadsheet record, with the `REQUIRED_FIELDS` columns in
their source order: 'Fecha Publicación', 'Categoria Publicación',
'Titulo', 'Autor(es)', 'Fuente', 'Volumen', 'Numero',
'Pagina Inicial', 'ISSN', 'DOI', 'Cuartil', 'Cuartil criterio IMFD',
'Red Formal en la que Participa', 'Líneas de Investigación', and the
three numeric counts. -/
structure Row where
  fechaPublicacion : Cell
  categoriaPublicacion : Cell
  titulo : Cell
  autores : Cell
  fuente : Cell
  volumen : Cell
  numero : Cell
  paginaInicial : Cell
  issn : Cell
  doi : Cell
  cuartil : Cell
  cuartilCriterio : Cell
  redFormal : Cell
  lineasInvestigacion : Cell
  nInvAsociados : Cell
  nInvOtraCategoria : Cell
  nEstudiantes : Cell
deriving DecidableEq, Repr

/-- The dictionary built by `_gather_properties`, one field per
property key of the source (P2..P18 and P24). -/
structure Properties where
  P2 : Cell
  P3 : Cell
  P5 : Cell
  P6 : Cell
  P7 : Cell
  P8 : Cell
  P9 : Cell
  P10 : Cell
  P11 : Cell
  P12 : Cell
  P13 : Cell
  P14 : Cell
  P16 : Cell
  P17 : Cell
  P18 : Cell
  P24 : Cell
deriving DecidableEq, Repr

/-- One `self.wikibase_handler.get_or_create_item(row[...]) if not
pd.isnull(row[...]) else None` entry of `_gather_properties`: resolve
the cell's display string with the default item type when the cell is
not null. -/
def resolve_cell (s : WBState) (c : Cell) : Cell × WBState × List WBCall :=
  match c with
  | Cell.none => (Cell.none, s, [])
  | c =>
    let r := get_or_create_item s (pyStr c) 0
    (Cell.str r.1, r.2.1, r.2.2)

/-- Python `str(row[...]) if not pd.isnull(row[...]) else None`. -/
def str_cell (c : Cell) : Cell :=
  match c with
  | Cell.none => Cell.none
  | c => Cell.str (pyStr c)

/-- `DataProcessor._gather_properties`: the property dictionary for a
row, with resolver calls (in source order: category, venue, formal
network) threaded through the handler state. The entries of the form
`row[...] if not pd.isnull(row[...]) else None` are the identity on
this cell model (null maps to null). -/
def gather_properties (s : WBState) (row : Row)
    (publication_date doi_identifier related_url : Cell) :
    Properties × WBState × List WBCall :=
  let r3 := resolve_cell s row.categoriaPublicacion
  let r5 := resolve_cell r3.2.1 row.fuente
  let r14 := resolve_cell r5.2.1 row.redFormal
  ({ P2 := publication_date
     P3 := r3.1
     P5 := r5.1
     P6 := str_cell row.volumen
     P7 := match row.numero with
           | Cell.int n => Cell.str (toString n)
           | _ => Cell.none
     P8 := row.titulo
     P9 := str_cell row.paginaInicial
     P10 := str_cell row.issn
     P11 := doi_identifier
     P12 := row.cuartil
     P13 := row.cuartilCriterio
     P14 := r14.1
     P16 := row.nInvAsociados
     P17 := row.nInvOtraCategoria
     P18 := row.nEstudiantes
     P24 := related_url },
   r14.2.1, r3.2.2 ++ r5.2.2 ++ r14.2.2)

/-- The chain of `if properties[...]:` appends at the end of
`_create_statements`, in source order, each emitting one statement of
the field's value kind exactly when the gathered value is truthy. -/
def scalar_statements (p : Properties) : List Statement :=
  (if truthy p.P2 then [Statement.time p.P2 "P2"] else []) ++
  (if truthy p.P3 then [Statement.itemID p.P3 "P3"] else []) ++
  (if truthy p.P5 then [Statement.itemID p.P5 "P5"] else []) ++
  (if truthy p.P6 then [Statement.string p.P6 "P6"] else []) ++
  (if truthy p.P7 then [Statement.string p.P7 "P7"] else []) ++
  (if truthy p.P8 then [Statement.string p.P8 "P8"] else []) ++
  (if truthy p.P9 then [Statement.string p.P9 "P9"] else []) ++
  (if truthy p.P10 then [Statement.externalID p.P10 "P10"] else []) ++
  (if truthy p.P11 then [Statement.externalID p.P11 "P11"] else []) ++
  (if truthy p.P12 then [Statement.string p.P12 "P12"] else []) ++
  (if truthy p.P13 then [Statement.string p.P13 "P13"] else []) ++
  (if truthy p.P14 then [Statement.itemID p.P14 "P14"] else []) ++
  (if truthy p.P16 then [Statement.quantity p.P16 "P16"] else []) ++
  (if truthy p.P17 then [Statement.quantity p.P17 "P17"] else []) ++
  (if truthy p.P18 then [Statement.quantity p.P18 "P18"] else []) ++
  (if truthy p.P24 then [Statement.url p.P24 "P24"] else [])

/-- A list comprehension
`[WDItemID(get_or_create_item(name.strip(), kind), prop_nr) for name in names]`
over already-stripped names, returning the statements, the final
handler state, and the calls in evaluation order. -/
def build_item_statements (s : WBState) (kind : Nat) (prop : String) :
    List String → List Statement × WBState × List WBCall
  | [] => ([], s, [])
  | n :: rest =>
    let r := get_or_create_item s n kind
    let next := build_item_statements r.2.1 kind prop rest
    (Statement.itemID (Cell.str r.1) prop :: next.1, next.2.1, r.2.2 ++ next.2.2)

/-- `DataProcessor._create_statements`: split the authors field on
commas and resolve each stripped name as `AUTHOR` onto property P4,
split the research-lines field on semicolons and resolve each stripped
name with the default type onto property P15, then append the scalar
statements. A null (or otherwise non-string) value in either split
field raises `AttributeError` before any statement list is returned. -/
def create_statements (s : WBState) (props : Properties) (row : Row) :
    Except String (List Statement × WBState × List WBCall) :=
  match row.autores with
  | Cell.str a =>
    let A := build_item_statements s AUTHOR "P4" ((py_split ',' a).map py_strip)
    match row.lineasInvestigacion with
    | Cell.str l =>
      let L := build_item_statements A.2.1 0 "P15" ((py_split ';' l).map py_strip)
      Except.ok (A.1 ++ L.1 ++ scalar_statements props, L.2.1, A.2.2 ++ L.2.2)
    | _ => Except.error "AttributeError: object has no attribute split"
  | _ => Except.error "AttributeError: object has no attribute split"

/-- The `_format_date(row['Fecha Publicación'])` call of
`_process_row` on a raw cell: a string or datetime cell is formatted,
a failed parse raises `ValueError`, a null or integer cell raises a
`TypeError` inside `strptime`. -/
def format_date_cell (c : Cell) : Except String String :=
  match c with
  | Cell.str raw =>
    match format_date (DateInput.str raw) with
    | some v => Except.ok v
    | Option.none => Except.error "ValueError: time data does not match format"
  | Cell.date d m y hh mi ss =>
    match format_date (DateInput.dt d m y hh mi ss) with
    | some v => Except.ok v
    | Option.none => Except.error "ValueError: time data does not match format"
  | _ => Except.error "TypeError: strptime argument"

/-- The two guarded DOI transforms of `_process_row`
(`_extract_doi(row['DOI']) if not pd.isnull(row['DOI']) else None` and
the same for `_process_url`): a null cell yields null for both, a
string cell runs the transforms, any other value raises a `TypeError`
on the substring test. -/
def doi_fields (c : Cell) : Except String (Cell × Cell) :=
  match c with
  | Cell.none => Except.ok (Cell.none, Cell.none)
  | Cell.str d =>
    Except.ok
      ((extract_doi d).elim Cell.none Cell.str, (process_url d).elim Cell.none Cell.str)
  | _ => Except.error "TypeError: argument of type is not iterable"

/-- `DataProcessor._process_row`: resolve or create the article item
for the title, normalize the date and DOI fields, gather the
properties, build the statement list, and write it to the item in one
remote call. Any exception aborts the row. -/
def process_row (s : WBState) (row : Row) : Except String (WBState × List WBCall) :=
  match row.titulo with
  | Cell.str title =>
    let r := get_or_create_item s title RESEARCH_ARTICLE
    match format_date_cell row.fechaPublicacion with
    | Except.error e => Except.error e
    | Except.ok pubDate =>
      match doi_fields row.doi with
      | Except.error e => Except.error e
      | Except.ok du =>
        let g := gather_properties r.2.1 row (Cell.str pubDate) du.1 du.2
        match create_statements g.2.1 g.1 row with
        | Except.error e => Except.error e
        | Except.ok cs =>
          Except.ok
            ({ cs.2.1 with remote := remote_write cs.2.1.remote r.1 cs.1 },
             r.2.2 ++ g.2.2 ++ cs.2.2 ++ [WBCall.writeData r.1 cs.1])
  | _ => Except.error "TypeError: title is not a string"

/-- Whether `row.isnull().all()` holds: every field of the row is
null. -/
def row_isnull_all (r : Row) : Prop :=
  r.fechaPublicacion = Cell.none ∧ r.categoriaPublicacion = Cell.none ∧
  r.titulo = Cell.none ∧ r.autores = Cell.none ∧ r.fuente = Cell.none ∧
  r.volumen = Cell.none ∧ r.numero = Cell.none ∧ r.paginaInicial = Cell.none ∧
  r.issn = Cell.none ∧ r.doi = Cell.none ∧ r.cuartil = Cell.none ∧
  r.cuartilCriterio = Cell.none ∧ r.redFormal = Cell.none ∧
  r.lineasInvestigacion = Cell.none ∧ r.nInvAsociados = Cell.none ∧
  r.nInvOtraCategoria = Cell.none ∧ r.nEstudiantes = Cell.none

instance (r : Row) : Decidable (row_isnull_all r) := by
  unfold row_isnull_all; infer_instance

/-- The row loop of `DataProcessor.process_data` (after the
interactive confirmation): iterate the rows in source order, breaking
out of the loop at the first row whose every field is null, otherwise
processing the row; an exception propagates and aborts the batch. -/
def process_data (s : WBState) : List Row → Except String WBState
  | [] => Except.ok s
  | r :: rest =>
    if row_isnull_all r then Except.ok s
    else
      match process_row s r with
      | Except.ok sr => process_data sr.1 rest
      | Except.error e => Except.error e

/-- Processing a row list with no sentinel check at all, used to state
what the batch driver actually processes. -/
def run_rows (s : WBState) : List Row → Except String WBState
  | [] => Except.ok s
  | r :: rest =>
    match process_row s r with
    | Except.ok sr => run_rows sr.1 rest
    | Except.error e => Except.error e

/-- The batch driver equals the plain left-to-right run of the rows
that come before the first fully-null row. -/
theorem process_data_eq_run_rows_take (s : WBState) (rows : List Row) :
    process_data s rows =
      run_rows s (rows.takeWhile (fun r => !decide (row_isnull_all r))) := by
  induction rows generalizing s with
  | nil => rfl
  | cons r rest ih =>
    by_cases h : row_isnull_all r
    · simp [process_data, run_rows, List.takeWhile_cons, h]
    · rw [process_data, if_neg h, List.takeWhile_cons]
      have hb : (!decide (row_isnull_all r)) = true := by simp [h]
      rw [hb, if_pos rfl, run_rows]
      rcases hp : process_row s r with e | sr <;> simp [hp, ih]

/-- C6: for every name that is already a key of the reconciliation
cache, the resolver returns the cached id and performs no remote call
at all — no search, create, label-set or write — leaving the state
untouched. -/
theorem resolve_cached_no_remote_call (s : WBState) (name : String) (kind : Nat)
    (qid : String) (h : s.cache.lookup name = some qid) :
    (get_or_create_item s name kind).1 = qid ∧
    (get_or_create_item s name kind).2.1 = s ∧
    ((get_or_create_item s name kind).2.2).filter WBCall.isRemote = [] := by
  rw [get_or_create_item_cache_hit s name kind qid h]
  exact ⟨rfl, rfl, rfl⟩

/-- A handler state whose cache already maps "Alice" to "Q7". -/
def c6State : WBState :=
  { cache := [("Alice", "Q7")], remote := { items := [], nextId := 1 } }

/-- Witness for the cache-hit theorem at a concrete cached name. -/
theorem resolve_cached_no_remote_call_witness :
    (get_or_create_item c6State "Alice" AUTHOR).1 = "Q7" ∧
    (get_or_create_item c6State "Alice" AUTHOR).2.1 = c6State ∧
    ((get_or_create_item c6State "Alice" AUTHOR).2.2).filter WBCall.isRemote = [] :=
  resolve_cached_no_remote_call c6State "Alice" AUTHOR "Q7" (by decide)

/-- A handler state with an empty cache and a remote store already
holding an item labelled "Alice". -/
def c1State : WBState :=
  { cache := [],
    remote := { items := [{ id := "Q5", label := "Alice", stmts := [] }], nextId := 6 } }

/-- C1 (counterexample): resolving a name that is absent from the
cache but found by the remote search returns the found id, yet does
NOT store that id in the cache — after the call the cache still has
no entry for the name, refuting the claim's "stores that id in the
cache under the name". -/
theorem resolve_found_id_not_cached :
    c1State.cache.lookup "Alice" = Option.none ∧
    search_results c1State.remote "Alice" = ["Q5"] ∧
    (get_or_create_item c1State "Alice" 0).1 = "Q5" ∧
    ((get_or_create_item c1State "Alice" 0).2.1).cache.lookup "Alice" = Option.none := by
  decide

/-- C1 (amended): for every name not present in the cache for which
the remote label search returns at least one item, the resolver
returns the id of the first found item and performs only the search
call — it creates no new remote item, but it also leaves the state,
including the cache, completely unchanged. -/
theorem resolve_found_returns_first (s : WBState) (name : String) (kind : Nat)
    (q : String) (qs : List String)
    (h1 : s.cache.lookup name = Option.none)
    (h2 : search_results s.remote name = q :: qs) :
    get_or_create_item s name kind =
      (q, s, [WBCall.resolveCall name kind, WBCall.searchRemote name]) := by
  simp [get_or_create_item, h1, h2]

/-- Witness for the search-found theorem at a concrete state. -/
theorem resolve_found_returns_first_witness :
    get_or_create_item c1State "Alice" 0 =
      ("Q5", c1State, [WBCall.resolveCall "Alice" 0, WBCall.searchRemote "Alice"]) :=
  resolve_found_returns_first c1State "Alice" 0 "Q5" [] (by decide) (by decide)

/-- Filtering a conditional singleton whose element fails the filter
yields nothing. -/
theorem filter_if_neg_stmt {f : Statement → Bool} (c : Prop) [Decidable c] {x : Statement}
    (h : f x = false) : List.filter f (if c then [x] else []) = [] := by
  split_ifs <;> simp [List.filter, h]

/-- Filtering a conditional singleton whose element passes the filter
keeps it. -/
theorem filter_if_pos_stmt {f : Statement → Bool} (c : Prop) [Decidable c] {x : Statement}
    (h : f x = true) : List.filter f (if c then [x] else []) = if c then [x] else [] := by
  split_ifs <;> simp [List.filter, h]

/-- The scalar statements carrying property key P7, as a function of
the gathered value for that key alone. -/
theorem filter_scalar_P7 (p : Properties) :
    (scalar_statements p).filter (fun st => st.propNr == "P7") =
      if truthy p.P7 then [Statement.string p.P7 "P7"] else [] := by
  unfold scalar_statements
  simp only [List.filter_append]
  rw [filter_if_neg_stmt _ (by rfl), filter_if_neg_stmt _ (by rfl),
    filter_if_neg_stmt _ (by rfl), filter_if_neg_stmt _ (by rfl),
    filter_if_pos_stmt _ (by rfl), filter_if_neg_stmt _ (by rfl),
    filter_if_neg_stmt _ (by rfl), filter_if_neg_stmt _ (by rfl),
    filter_if_neg_stmt _ (by rfl), filter_if_neg_stmt _ (by rfl),
    filter_if_neg_stmt _ (by rfl), filter_if_neg_stmt _ (by rfl),
    filter_if_neg_stmt _ (by rfl), filter_if_neg_stmt _ (by rfl),
    filter_if_neg_stmt _ (by rfl), filter_if_neg_stmt _ (by rfl)]
  simp

/-- The scalar statements carrying property key P2, as a function of
the gathered value for that key alone. -/
theorem filter_scalar_P2 (p : Properties) :
    (scalar_statements p).filter (fun st => st.propNr == "P2") =
      if truthy p.P2 then [Statement.time p.P2 "P2"] else [] := by
  unfold scalar_statements
  simp only [List.filter_append]
  rw [filter_if_pos_stmt _ (by rfl),
    filter_if_neg_stmt _ (by rfl),
    filter_if_neg_stmt _ (by rfl),
    filter_if_neg_stmt _ (by rfl),
    filter_if_neg_stmt _ (by rfl),
    filter_if_neg_stmt _ (by rfl),
    filter_if_neg_stmt _ (by rfl),
    filter_if_neg_stmt _ (by rfl),
    filter_if_neg_stmt _ (by rfl),
    filter_if_neg_stmt _ (by rfl),
    filter_if_neg_stmt _ (by rfl),
    filter_if_neg_stmt _ (by rfl),
    filter_if_neg_stmt _ (by rfl),
    filter_if_neg_stmt _ (by rfl),
    filter_if_neg_stmt _ (by rfl),
    filter_if_neg_stmt _ (by rfl)]
  simp

/-- The scalar statements carrying property key P3, as a function of
the gathered value for that key alone. -/
theorem filter_scalar_P3 (p : Properties) :
    (scalar_statements p).filter (fun st => st.propNr == "P3") =
      if truthy p.P3 then [Statement.itemID p.P3 "P3"] else [] := by
  unfold scalar_statements
  simp only [List.filter_append]
  rw [filter_if_neg_stmt _ (by rfl),
    filter_if_pos_stmt _ (by rfl),
    filter_if_neg_stmt _ (by rfl),
    filter_if_neg_stmt _ (by rfl),
    filter_if_neg_stmt _ (by rfl),
    filter_if_neg_stmt _ (by rfl),
    filter_if_neg_stmt _ (by rfl),
    filter_if_neg_stmt _ (by rfl),
    filter_if_neg_stmt _ (by rfl),
    filter_if_neg_stmt _ (by rfl),
    filter_if_neg_stmt _ (by rfl),
    filter_if_neg_stmt _ (by rfl),
    filter_if_neg_stmt _ (by rfl),
    filter_if_neg_stmt _ (by rfl),
    filter_if_neg_stmt _ (by rfl),
    filter_if_neg_stmt _ (by rfl)]
  simp

/-- The scalar statements carrying property key P5, as a function of
the gathered value for that key alone. -/
theorem filter_scalar_P5 (p : Properties) :
    (scalar_statements p).filter (fun st => st.propNr == "P5") =
      if truthy p.P5 then [Statement.itemID p.P5 "P5"] else [] := by
  unfold scalar_statements
  simp only [List.filter_append]
  rw [filter_if_neg_stmt _ (by rfl),
    filter_if_neg_stmt _ (by rfl),
    filter_if_pos_stmt _ (by rfl),
    filter_if_neg_stmt _ (by rfl),
    filter_if_neg_stmt _ (by rfl),
    filter_if_neg_stmt _ (by rfl),
    filter_if_neg_stmt _ (by rfl),
    filter_if_neg_stmt _ (by rfl),
    filter_if_neg_stmt _ (by rfl),
    filter_if_neg_stmt _ (by rfl),
    filter_if_neg_stmt _ (by rfl),
    filter_if_neg_stmt _ (by rfl),
    filter_if_neg_stmt _ (by rfl),
    filter_if_neg_stmt _ (by rfl),
    filter_if_neg_stmt _ (by rfl),
    filter_if_neg_stmt _ (by rfl)]
  simp

/-- The scalar statements carrying property key P6, as a function of
the gathered value for that key alone. -/
theorem filter_scalar_P6 (p : Properties) :
    (scalar_statements p).filter (fun st => st.propNr == "P6") =
      if truthy p.P6 then [Statement.string p.P6 "P6"] else [] := by
  unfold scalar_statements
  simp only [List.filter_append]
  rw [filter_if_neg_stmt _ (by rfl),
    filter_if_neg_stmt _ (by rfl),
    filter_if_neg_stmt _ (by rfl),
    filter_if_pos_stmt _ (by rfl),
    filter_if_neg_stmt _ (by rfl),
    filter_if_neg_stmt _ (by rfl),
    filter_if_neg_stmt _ (by rfl),
    filter_if_neg_stmt _ (by rfl),
    filter_if_neg_stmt _ (by rfl),
    filter_if_neg_stmt _ (by rfl),
    filter_if_neg_stmt _ (by rfl),
    filter_if_neg_stmt _ (by rfl),
    filter_if_neg_stmt _ (by rfl),
    filter_if_neg_stmt _ (by rfl),
    filter_if_neg_stmt _ (by rfl),
    filter_if_neg_stmt _ (by rfl)]
  simp

/-- The scalar statements carrying property key P8, as a function of
the gathered value for that key alone. -/
theorem filter_scalar_P8 (p : Properties) :
    (scalar_statements p).filter (fun st => st.propNr == "P8") =
      if truthy p.P8 then [Statement.string p.P8 "P8"] else [] := by
  unfold scalar_statements
  simp only [List.filter_append]
  rw [filter_if_neg_stmt _ (by rfl),
    filter_if_neg_stmt _ (by rfl),
    filter_if_neg_stmt _ (by rfl),
    filter_if_neg_stmt _ (by rfl),
    filter_if_neg_stmt _ (by rfl),
    filter_if_pos_stmt _ (by rfl),
    filter_if_neg_stmt _ (by rfl),
    filter_if_neg_stmt _ (by rfl),
    filter_if_neg_stmt _ (by rfl),
    filter_if_neg_stmt _ (by rfl),
    filter_if_neg_stmt _ (by rfl),
    filter_if_neg_stmt _ (by rfl),
    filter_if_neg_stmt _ (by rfl),
    filter_if_neg_stmt _ (by rfl),
    filter_if_neg_stmt _ (by rfl),
    filter_if_neg_stmt _ (by rfl)]
  simp

/-- The scalar statements carrying property key P9, as a function of
the gathered value for that key alone. -/
theorem filter_scalar_P9 (p : Properties) :
    (scalar_statements p).filter (fun st => st.propNr == "P9") =
      if truthy p.P9 then [Statement.string p.P9 "P9"] else [] := by
  unfold scalar_statements
  simp only [List.filter_append]
  rw [filter_if_neg_stmt _ (by rfl),
    filter_if_neg_stmt _ (by rfl),
    filter_if_neg_stmt _ (by rfl),
    filter_if_neg_stmt _ (by rfl),
    filter_if_neg_stmt _ (by rfl),
    filter_if_neg_stmt _ (by rfl),
    filter_if_pos_stmt _ (by rfl),
    filter_if_neg_stmt _ (by rfl),
    filter_if_neg_stmt _ (by rfl),
    filter_if_neg_stmt _ (by rfl),
    filter_if_neg_stmt _ (by rfl),
    filter_if_neg_stmt _ (by rfl),
    filter_if_neg_stmt _ (by rfl),
    filter_if_neg_stmt _ (by rfl),
    filter_if_neg_stmt _ (by rfl),
    filter_if_neg_stmt _ (by rfl)]
  simp

/-- The scalar statements carrying property key P10, as a function of
the gathered value for that key alone. -/
theorem filter_scalar_P10 (p : Properties) :
    (scalar_statements p).filter (fun st => st.propNr == "P10") =
      if truthy p.P10 then [Statement.externalID p.P10 "P10"] else [] := by
  unfold scalar_statements
  simp only [List.filter_append]
  rw [filter_if_neg_stmt _ (by rfl),
    filter_if_neg_stmt _ (by rfl),
    filter_if_neg_stmt _ (by rfl),
    filter_if_neg_stmt _ (by rfl),
    filter_if_neg_stmt _ (by rfl),
    filter_if_neg_stmt _ (by rfl),
    filter_if_neg_stmt _ (by rfl),
    filter_if_pos_stmt _ (by rfl),
    filter_if_neg_stmt _ (by rfl),
    filter_if_neg_stmt _ (by rfl),
    filter_if_neg_stmt _ (by rfl),
    filter_if_neg_stmt _ (by rfl),
    filter_if_neg_stmt _ (by rfl),
    filter_if_neg_stmt _ (by rfl),
    filter_if_neg_stmt _ (by rfl),
    filter_if_neg_stmt _ (by rfl)]
  simp

/-- The scalar statements carrying property key P11, as a function of
the gathered value for that key alone. -/
theorem filter_scalar_P11 (p : Properties) :
    (scalar_statements p).filter (fun st => st.propNr == "P11") =
      if truthy p.P11 then [Statement.externalID p.P11 "P11"] else [] := by
  unfold scalar_statements
  simp only [List.filter_append]
  rw [filter_if_neg_stmt _ (by rfl),
    filter_if_neg_stmt _ (by rfl),
    filter_if_neg_stmt _ (by rfl),
    filter_if_neg_stmt _ (by rfl),
    filter_if_neg_stmt _ (by rfl),
    filter_if_neg_stmt _ (by rfl),
    filter_if_neg_stmt _ (by rfl),
    filter_if_neg_stmt _ (by rfl),
    filter_if_pos_stmt _ (by rfl),
    filter_if_neg_stmt _ (by rfl),
    filter_if_neg_stmt _ (by rfl),
    filter_if_neg_stmt _ (by rfl),
    filter_if_neg_stmt _ (by rfl),
    filter_if_neg_stmt _ (by rfl),
    filter_if_neg_stmt _ (by rfl),
    filter_if_neg_stmt _ (by rfl)]
  simp

/-- The scalar statements carrying property key P12, as a function of
the gathered value for that key alone. -/
theorem filter_scalar_P12 (p : Properties) :
    (scalar_statements p).filter (fun st => st.propNr == "P12") =
      if truthy p.P12 then [Statement.string p.P12 "P12"] else [] := by
  unfold scalar_statements
  simp only [List.filter_append]
  rw [filter_if_neg_stmt _ (by rfl),
    filter_if_neg_stmt _ (by rfl),
    filter_if_neg_stmt _ (by rfl),
    filter_if_neg_stmt _ (by rfl),
    filter_if_neg_stmt _ (by rfl),
    filter_if_neg_stmt _ (by rfl),
    filter_if_neg_stmt _ (by rfl),
    filter_if_neg_stmt _ (by rfl),
    filter_if_neg_stmt _ (by rfl),
    filter_if_pos_stmt _ (by rfl),
    filter_if_neg_stmt _ (by rfl),
    filter_if_neg_stmt _ (by rfl),
    filter_if_neg_stmt _ (by rfl),
    filter_if_neg_stmt _ (by rfl),
    filter_if_neg_stmt _ (by rfl),
    filter_if_neg_stmt _ (by rfl)]
  simp

/-- The scalar statements carrying property key P13, as a function of
the gathered value for that key alone. -/
theorem filter_scalar_P13 (p : Properties) :
    (scalar_statements p).filter (fun st => st.propNr == "P13") =
      if truthy p.P13 then [Statement.string p.P13 "P13"] else [] := by
  unfold scalar_statements
  simp only [List.filter_append]
  rw [filter_if_neg_stmt _ (by rfl),
    filter_if_neg_stmt _ (by rfl),
    filter_if_neg_stmt _ (by rfl),
    filter_if_neg_stmt _ (by rfl),
    filter_if_neg_stmt _ (by rfl),
    filter_if_neg_stmt _ (by rfl),
    filter_if_neg_stmt _ (by rfl),
    filter_if_neg_stmt _ (by rfl),
    filter_if_neg_stmt _ (by rfl),
    filter_if_neg_stmt _ (by rfl),
    filter_if_pos_stmt _ (by rfl),
    filter_if_neg_stmt _ (by rfl),
    filter_if_neg_stmt _ (by rfl),
    filter_if_neg_stmt _ (by rfl),
    filter_if_neg_stmt _ (by rfl),
    filter_if_neg_stmt _ (by rfl)]
  simp

/-- The scalar statements carrying property key P14, as a function of
the gathered value for that key alone. -/
theorem filter_scalar_P14 (p : Properties) :
    (scalar_statements p).filter (fun st => st.propNr == "P14") =
      if truthy p.P14 then [Statement.itemID p.P14 "P14"] else [] := by
  unfold scalar_statements
  simp only [List.filter_append]
  rw [filter_if_neg_stmt _ (by rfl),
    filter_if_neg_stmt _ (by rfl),
    filter_if_neg_stmt _ (by rfl),
    filter_if_neg_stmt _ (by rfl),
    filter_if_neg_stmt _ (by rfl),
    filter_if_neg_stmt _ (by rfl),
    filter_if_neg_stmt _ (by rfl),
    filter_if_neg_stmt _ (by rfl),
    filter_if_neg_stmt _ (by rfl),
    filter_if_neg_stmt _ (by rfl),
    filter_if_neg_stmt _ (by rfl),
    filter_if_pos_stmt _ (by rfl),
    filter_if_neg_stmt _ (by rfl),
    filter_if_neg_stmt _ (by rfl),
    filter_if_neg_stmt _ (by rfl),
    filter_if_neg_stmt _ (by rfl)]
  simp

/-- The scalar statements carrying property key P16, as a function of
the gathered value for that key alone. -/
theorem filter_scalar_P16 (p : Properties) :
    (scalar_statements p).filter (fun st => st.propNr == "P16") =
      if truthy p.P16 then [Statement.quantity p.P16 "P16"] else [] := by
  unfold scalar_statements
  simp only [List.filter_append]
  rw [filter_if_neg_stmt _ (by rfl),
    filter_if_neg_stmt _ (by rfl),
    filter_if_neg_stmt _ (by rfl),
    filter_if_neg_stmt _ (by rfl),
    filter_if_neg_stmt _ (by rfl),
    filter_if_neg_stmt _ (by rfl),
    filter_if_neg_stmt _ (by rfl),
    filter_if_neg_stmt _ (by rfl),
    filter_if_neg_stmt _ (by rfl),
    filter_if_neg_stmt _ (by rfl),
    filter_if_neg_stmt _ (by rfl),
    filter_if_neg_stmt _ (by rfl),
    filter_if_pos_stmt _ (by rfl),
    filter_if_neg_stmt _ (by rfl),
    filter_if_neg_stmt _ (by rfl),
    filter_if_neg_stmt _ (by rfl)]
  simp

/-- The scalar statements carrying property key P17, as a function of
the gathered value for that key alone. -/
theorem filter_scalar_P17 (p : Properties) :
    (scalar_statements p).filter (fun st => st.propNr == "P17") =
      if truthy p.P17 then [Statement.quantity p.P17 "P17"] else [] := by
  unfold scalar_statements
  simp only [List.filter_append]
  rw [filter_if_neg_stmt _ (by rfl),
    filter_if_neg_stmt _ (by rfl),
    filter_if_neg_stmt _ (by rfl),
    filter_if_neg_stmt _ (by rfl),
    filter_if_neg_stmt _ (by rfl),
    filter_if_neg_stmt _ (by rfl),
    filter_if_neg_stmt _ (by rfl),
    filter_if_neg_stmt _ (by rfl),
    filter_if_neg_stmt _ (by rfl),
    filter_if_neg_stmt _ (by rfl),
    filter_if_neg_stmt _ (by rfl),
    filter_if_neg_stmt _ (by rfl),
    filter_if_neg_stmt _ (by rfl),
    filter_if_pos_stmt _ (by rfl),
    filter_if_neg_stmt _ (by rfl),
    filter_if_neg_stmt _ (by rfl)]
  simp

/-- The scalar statements carrying property key P18, as a function of
the gathered value for that key alone. -/
theorem filter_scalar_P18 (p : Properties) :
    (scalar_statements p).filter (fun st => st.propNr == "P18") =
      if truthy p.P18 then [Statement.quantity p.P18 "P18"] else [] := by
  unfold scalar_statements
  simp only [List.filter_append]
  rw [filter_if_neg_stmt _ (by rfl),
    filter_if_neg_stmt _ (by rfl),
    filter_if_neg_stmt _ (by rfl),
    filter_if_neg_stmt _ (by rfl),
    filter_if_neg_stmt _ (by rfl),
    filter_if_neg_stmt _ (by rfl),
    filter_if_neg_stmt _ (by rfl),
    filter_if_neg_stmt _ (by rfl),
    filter_if_neg_stmt _ (by rfl),
    filter_if_neg_stmt _ (by rfl),
    filter_if_neg_stmt _ (by rfl),
    filter_if_neg_stmt _ (by rfl),
    filter_if_neg_stmt _ (by rfl),
    filter_if_neg_stmt _ (by rfl),
    filter_if_pos_stmt _ (by rfl),
    filter_if_neg_stmt _ (by rfl)]
  simp

/-- The scalar statements carrying property key P24, as a function of
the gathered value for that key alone. -/
theorem filter_scalar_P24 (p : Properties) :
    (scalar_statements p).filter (fun st => st.propNr == "P24") =
      if truthy p.P24 then [Statement.url p.P24 "P24"] else [] := by
  unfold scalar_statements
  simp only [List.filter_append]
  rw [filter_if_neg_stmt _ (by rfl),
    filter_if_neg_stmt _ (by rfl),
    filter_if_neg_stmt _ (by rfl),
    filter_if_neg_stmt _ (by rfl),
    filter_if_neg_stmt _ (by rfl),
    filter_if_neg_stmt _ (by rfl),
    filter_if_neg_stmt _ (by rfl),
    filter_if_neg_stmt _ (by rfl),
    filter_if_neg_stmt _ (by rfl),
    filter_if_neg_stmt _ (by rfl),
    filter_if_neg_stmt _ (by rfl),
    filter_if_neg_stmt _ (by rfl),
    filter_if_neg_stmt _ (by rfl),
    filter_if_neg_stmt _ (by rfl),
    filter_if_neg_stmt _ (by rfl),
    filter_if_pos_stmt _ (by rfl)]
  simp

/-- A fresh handler state: empty cache, empty remote store. -/
def emptyState : WBState := { cache := [], remote := { items := [], nextId := 1 } }

/-- C2 (amended): for every scalar/reference field, the Statement
Builder emits exactly one statement of the value-kind appropriate to
that field precisely when the gathered value for the field is truthy
in Python's sense (non-null, and non-empty for strings, non-zero for
integers); absent values produce no statement — never a placeholder —
but so do present falsy values such as an integer count of 0. -/
theorem scalar_statement_emission :
    (∀ p : Properties, (scalar_statements p).filter (fun st => st.propNr == "P2") =
      if truthy p.P2 then [Statement.time p.P2 "P2"] else []) ∧
    (∀ p : Properties, (scalar_statements p).filter (fun st => st.propNr == "P3") =
      if truthy p.P3 then [Statement.itemID p.P3 "P3"] else []) ∧
    (∀ p : Properties, (scalar_statements p).filter (fun st => st.propNr == "P5") =
      if truthy p.P5 then [Statement.itemID p.P5 "P5"] else []) ∧
    (∀ p : Properties, (scalar_statements p).filter (fun st => st.propNr == "P6") =
      if truthy p.P6 then [Statement.string p.P6 "P6"] else []) ∧
    (∀ p : Properties, (scalar_statements p).filter (fun st => st.propNr == "P7") =
      if truthy p.P7 then [Statement.string p.P7 "P7"] else []) ∧
    (∀ p : Properties, (scalar_statements p).filter (fun st => st.propNr == "P8") =
      if truthy p.P8 then [Statement.string p.P8 "P8"] else []) ∧
    (∀ p : Properties, (scalar_statements p).filter (fun st => st.propNr == "P9") =
      if truthy p.P9 then [Statement.string p.P9 "P9"] else []) ∧
    (∀ p : Properties, (scalar_statements p).filter (fun st => st.propNr == "P10") =
      if truthy p.P10 then [Statement.externalID p.P10 "P10"] else []) ∧
    (∀ p : Properties, (scalar_statements p).filter (fun st => st.propNr == "P11") =
      if truthy p.P11 then [Statement.externalID p.P11 "P11"] else []) ∧
    (∀ p : Properties, (scalar_statements p).filter (fun st => st.propNr == "P12") =
      if truthy p.P12 then [Statement.string p.P12 "P12"] else []) ∧
    (∀ p : Properties, (scalar_statements p).filter (fun st => st.propNr == "P13") =
      if truthy p.P13 then [Statement.string p.P13 "P13"] else []) ∧
    (∀ p : Properties, (scalar_statements p).filter (fun st => st.propNr == "P14") =
      if truthy p.P14 then [Statement.itemID p.P14 "P14"] else []) ∧
    (∀ p : Properties, (scalar_statements p).filter (fun st => st.propNr == "P16") =
      if truthy p.P16 then [Statement.quantity p.P16 "P16"] else []) ∧
    (∀ p : Properties, (scalar_statements p).filter (fun st => st.propNr == "P17") =
      if truthy p.P17 then [Statement.quantity p.P17 "P17"] else []) ∧
    (∀ p : Properties, (scalar_statements p).filter (fun st => st.propNr == "P18") =
      if truthy p.P18 then [Statement.quantity p.P18 "P18"] else []) ∧
    (∀ p : Properties, (scalar_statements p).filter (fun st => st.propNr == "P24") =
      if truthy p.P24 then [Statement.url p.P24 "P24"] else []) :=
  ⟨filter_scalar_P2, filter_scalar_P3, filter_scalar_P5, filter_scalar_P6, filter_scalar_P7,
   filter_scalar_P8, filter_scalar_P9, filter_scalar_P10, filter_scalar_P11, filter_scalar_P12,
   filter_scalar_P13, filter_scalar_P14, filter_scalar_P16, filter_scalar_P17, filter_scalar_P18,
   filter_scalar_P24⟩

/-- A concrete row whose numeric-count field 'N° estudiantes' holds
the integer 0 — a present, non-null, non-empty source value. -/
def c2Row : Row :=
  { fechaPublicacion := Cell.date 15 3 2021 0 0 0
    categoriaPublicacion := Cell.str "Articulo"
    titulo := Cell.str "A Paper"
    autores := Cell.str "Jane Doe"
    fuente := Cell.str "Journal"
    volumen := Cell.int 7
    numero := Cell.int 12
    paginaInicial := Cell.int 1
    issn := Cell.str "1234-5678"
    doi := Cell.none
    cuartil := Cell.str "Q1"
    cuartilCriterio := Cell.str "Q1"
    redFormal := Cell.str "Red"
    lineasInvestigacion := Cell.str "L1"
    nInvAsociados := Cell.int 2
    nInvOtraCategoria := Cell.int 1
    nEstudiantes := Cell.int 0 }

/-- C2 (counterexample): the 'N° estudiantes' count of `c2Row` is the
integer 0 — present, not null, not empty — yet the builder emits no
statement at all for its property P18, refuting "if the row's source
value is present (not null/empty) the Statement Builder emits exactly
one statement". -/
theorem scalar_statement_emission_counterexample :
    c2Row.nEstudiantes = Cell.int 0 ∧
    c2Row.nEstudiantes ≠ Cell.none ∧
    (scalar_statements
        (gather_properties emptyState c2Row (Cell.str "+2021-03-15T00:00:00Z")
          Cell.none Cell.none).1).filter (fun st => st.propNr == "P18") = [] := by
  decide

/-- A row identical to `c2Row` except that the issue number 'Numero'
holds the string "12" instead of an integer. -/
def c7RowStr : Row := { c2Row with numero := Cell.str "12" }

/-- C7: the issue-number field yields a statement exactly when its
source value is an integer — for every row and handler state, the P7
part of the built scalar statements is one StringValue statement with
the stringified integer when 'Numero' is an integer, and empty
otherwise; concretely, integer 12 yields one StringValue statement on
P7 while the numeric-looking string "12" yields none. -/
theorem issue_number_integer_only :
    (∀ (s : WBState) (row : Row) (pdate di ru : Cell),
      (scalar_statements (gather_properties s row pdate di ru).1).filter
          (fun st => st.propNr == "P7") =
        (match row.numero with
         | Cell.int n => [Statement.string (Cell.str (toString n)) "P7"]
         | _ => [])) ∧
    c2Row.numero = Cell.int 12 ∧
    (scalar_statements
        (gather_properties emptyState c2Row (Cell.str "+2021-03-15T00:00:00Z")
          Cell.none Cell.none).1).filter (fun st => st.propNr == "P7") =
      [Statement.string (Cell.str "12") "P7"] ∧
    c7RowStr.numero = Cell.str "12" ∧
    (scalar_statements
        (gather_properties emptyState c7RowStr (Cell.str "+2021-03-15T00:00:00Z")
          Cell.none Cell.none).1).filter (fun st => st.propNr == "P7") = [] := by
  refine ⟨?_, by decide, by decide, by decide, by decide⟩
  intro s row pdate di ru
  rw [filter_scalar_P7]
  have hp7 : (gather_properties s row pdate di ru).1.P7 =
      (match row.numero with
       | Cell.int n => Cell.str (toString n)
       | _ => Cell.none) := rfl
  rw [hp7]
  cases h : row.numero with
  | int n => simp [truthy, toString_int_ne_empty n]
  | none => simp [truthy]
  | str v => simp [truthy]
  | date a b c d e f => simp [truthy]

/-- Whatever branch the resolver takes, its call trace contains
exactly one resolve entry: its own, with the given name and kind. -/
theorem get_or_create_item_resolve_trace (s : WBState) (name : String) (kind : Nat) :
    ((get_or_create_item s name kind).2.2).filter WBCall.isResolve =
      [WBCall.resolveCall name kind] := by
  unfold get_or_create_item
  cases hc : s.cache.lookup name with
  | some q => simp [WBCall.isResolve]
  | none =>
    cases hs : search_results s.remote name with
    | cons q qs => simp [WBCall.isResolve]
    | nil =>
      simp only [List.filter_append]
      split_ifs <;>
        simp [WBCall.isResolve, research_article_baseline, author_baseline]

/-- The resolve entries of a statement-building comprehension are the
given names in order, each with the comprehension's kind. -/
theorem build_item_statements_trace (s : WBState) (kind : Nat) (prop : String)
    (names : List String) :
    ((build_item_statements s kind prop names).2.2).filter WBCall.isResolve =
      names.map (fun n => WBCall.resolveCall n kind) := by
  induction names generalizing s with
  | nil => rfl
  | cons n rest ih =>
    simp only [build_item_statements, List.filter_append,
      get_or_create_item_resolve_trace, ih, List.map_cons]
    rfl

/-- The statements of a statement-building comprehension are one item
reference per name, all on the comprehension's property. -/
theorem build_item_statements_stmts (s : WBState) (kind : Nat) (prop : String)
    (names : List String) :
    ((build_item_statements s kind prop names).1).map Statement.propNr =
      names.map (fun _ => prop) ∧
    ((build_item_statements s kind prop names).1).all Statement.isItemRef = true := by
  induction names generalizing s with
  | nil => exact ⟨rfl, rfl⟩
  | cons n rest ih =>
    refine ⟨?_, ?_⟩ <;>
      simp [build_item_statements, Statement.propNr, Statement.isItemRef, (ih _).1, (ih _).2]

/-- A property dictionary with every entry null. -/
def defaultProps : Properties :=
  { P2 := Cell.none, P3 := Cell.none, P5 := Cell.none, P6 := Cell.none, P7 := Cell.none
    P8 := Cell.none, P9 := Cell.none, P10 := Cell.none, P11 := Cell.none, P12 := Cell.none
    P13 := Cell.none, P14 := Cell.none, P16 := Cell.none, P17 := Cell.none, P18 := Cell.none
    P24 := Cell.none }

/-- C5: the Statement Builder splits the authors field on commas (not
semicolons), resolves each stripped name as kind AUTHOR, and emits one
item-reference statement per author on the fixed property P4,
preserving the split order; concretely, "Jane Doe, John Smith"
produces resolver calls for "Jane Doe" and then "John Smith". -/
theorem authors_comma_split_resolution :
    (∀ (s : WBState) (props : Properties) (row : Row) (a l : String),
      row.autores = Cell.str a → row.lineasInvestigacion = Cell.str l →
      create_statements s props row =
        (let A := build_item_statements s AUTHOR "P4" ((py_split ',' a).map py_strip)
         let L := build_item_statements A.2.1 0 "P15" ((py_split ';' l).map py_strip)
         Except.ok (A.1 ++ L.1 ++ scalar_statements props, L.2.1, A.2.2 ++ L.2.2))) ∧
    (∀ (s : WBState) (names : List String),
      ((build_item_statements s AUTHOR "P4" names).2.2).filter WBCall.isResolve =
        names.map (fun n => WBCall.resolveCall n AUTHOR)) ∧
    (∀ (s : WBState) (names : List String),
      ((build_item_statements s AUTHOR "P4" names).1).map Statement.propNr =
        names.map (fun _ => "P4") ∧
      ((build_item_statements s AUTHOR "P4" names).1).all Statement.isItemRef = true) ∧
    ((py_split ',' "Jane Doe, John Smith").map py_strip = ["Jane Doe", "John Smith"]) ∧
    (((build_item_statements emptyState AUTHOR "P4"
          ((py_split ',' "Jane Doe, John Smith").map py_strip)).2.2).filter WBCall.isResolve =
      [WBCall.resolveCall "Jane Doe" AUTHOR, WBCall.resolveCall "John Smith" AUTHOR]) := by
  refine ⟨?_, ?_, ?_, by decide, by decide⟩
  · intro s props row a l ha hl
    simp [create_statements, ha, hl]
  · intro s names
    exact build_item_statements_trace s AUTHOR "P4" names
  · intro s names
    exact build_item_statements_stmts s AUTHOR "P4" names

/-- Witness for the author splitting theorem at a concrete row whose
authors cell is the string "Jane Doe". -/
theorem authors_comma_split_resolution_witness :
    create_statements emptyState defaultProps c2Row =
      (let A := build_item_statements emptyState AUTHOR "P4"
          ((py_split ',' "Jane Doe").map py_strip)
       let L := build_item_statements A.2.1 0 "P15" ((py_split ';' "L1").map py_strip)
       Except.ok (A.1 ++ L.1 ++ scalar_statements defaultProps, L.2.1, A.2.2 ++ L.2.2)) :=
  authors_comma_split_resolution.1 emptyState defaultProps c2Row "Jane Doe" "L1" rfl rfl

/-- C10: the Statement Builder requires the authors field and the
research-lines field to be present string values — a null in either
makes processing the row fail (the `AttributeError` of calling
`.split` on a non-string) before any statement list is returned. -/
theorem authors_lines_must_be_present (s : WBState) (props : Properties) (row : Row)
    (h : row.autores = Cell.none ∨ row.lineasInvestigacion = Cell.none) :
    ∃ e, create_statements s props row = Except.error e := by
  rcases h with h | h
  · exact ⟨"AttributeError: object has no attribute split", by simp [create_statements, h]⟩
  · cases ha : row.autores with
    | str a =>
      exact ⟨"AttributeError: object has no attribute split",
        by simp [create_statements, ha, h]⟩
    | none => exact ⟨"AttributeError: object has no attribute split",
        by simp [create_statements, ha]⟩
    | int n => exact ⟨"AttributeError: object has no attribute split",
        by simp [create_statements, ha]⟩
    | date a b c d e f => exact ⟨"AttributeError: object has no attribute split",
        by simp [create_statements, ha]⟩

/-- A row like `c2Row` but with a null authors field. -/
def c10Row : Row := { c2Row with autores := Cell.none }

/-- Witness for the required-fields theorem at a concrete row with a
null authors cell. -/
theorem authors_lines_must_be_present_witness :
    ∃ e, create_statements emptyState defaultProps c10Row = Except.error e :=
  authors_lines_must_be_present emptyState defaultProps c10Row (Or.inl rfl)

/-- The SPARQL query template of `construct_query`, with the regex
alternation spliced in: persons (`wdt:P20 wd:Q1`) whose label matches
the regex case-insensitively, labels restricted to English. -/
def sparql_query (regex : String) : String :=
  "\n    SELECT ?person ?personLabel WHERE \x7b\n      ?person wdt:P20 wd:Q1;\n             rdfs:label ?personLabel.\n\n      # Aplica un filtro REGEX para encontrar coincidencias flexibles\n      FILTER (REGEX(?personLabel, \"" ++
  regex ++
  "\", \"i\")).\n\n      # Esto asegurará que las etiquetas sean devueltas en el idioma preferido\n      FILTER (LANG(?personLabel) = \"en\").\n    \x7d\n    "

/-- `construct_query` of `search_person_by_name.py`: split the name on
whitespace; with fewer than two parts raise a `ValueError`; otherwise
take the first part as first name and the last part as last name and
build the regex alternating "Last F" (last name, space, first
initial), "F. Last" (first initial, dot, space, last name) and
"First Last", spliced into the SPARQL template. -/
def construct_query (name : String) : Except String String :=
  let parts := py_split_ws name
  if parts.length < 2 then
    Except.error "Please provide both a first name and a last name"
  else
    let first_name := parts.headD ""
    let last_name := parts.getLastD ""
    let initial := String.mk (first_name.toList.take 1)
    let patterns := [last_name ++ " " ++ initial,
                     initial ++ ". " ++ last_name,
                     first_name ++ " " ++ last_name]
    Except.ok (sparql_query (String.intercalate "|" patterns))

/-- The network queries issued by `search_person_by_name`: none when
`construct_query` raises, the constructed query once otherwise (the
validation error is raised before the SPARQL endpoint is ever
contacted). -/
def search_person_calls (name : String) : List String :=
  match construct_query name with
  | Except.error _ => []
  | Except.ok q => [q]

/-- C9: the person-search utility raises its validation error for
every name with fewer than two whitespace-separated tokens before any
network call is made, and for every name with at least two tokens it
builds the query regex as the alternation "Last F" | "F. Last" |
"First Last" from the first and last tokens. -/
theorem construct_query_validation :
    (∀ name : String, (py_split_ws name).length < 2 →
      construct_query name = Except.error "Please provide both a first name and a last name" ∧
      search_person_calls name = []) ∧
    (∀ name : String, 2 ≤ (py_split_ws name).length →
      construct_query name = Except.ok (sparql_query (String.intercalate "|"
        [(py_split_ws name).getLastD "" ++ " " ++
           String.mk (((py_split_ws name).headD "").toList.take 1),
         String.mk (((py_split_ws name).headD "").toList.take 1) ++ ". " ++
           (py_split_ws name).getLastD "",
         ((py_split_ws name).headD "") ++ " " ++ (py_split_ws name).getLastD ""]))) := by
  constructor
  · intro name h
    refine ⟨by simp [construct_query, if_pos h], ?_⟩
    simp [search_person_calls, construct_query, if_pos h]
  · intro name h
    have hn : ¬ (py_split_ws name).length < 2 := by omega
    simp [construct_query, hn]

/-- Witness for the query construction theorem: a one-token name is
rejected with no network call, and a three-token name yields the
alternation built from its first and last tokens. -/
theorem construct_query_validation_witness :
    (construct_query "Jane" = Except.error "Please provide both a first name and a last name" ∧
      search_person_calls "Jane" = []) ∧
    construct_query "Jane Anne Doe" = Except.ok (sparql_query "Doe J|J. Doe|Jane Doe") :=
  ⟨construct_query_validation.1 "Jane" (by decide),
   (construct_query_validation.2 "Jane Anne Doe" (by decide)).trans
     (congrArg (fun q => Except.ok (sparql_query q)) (by decide))⟩

/-- C8: the batch driver processes rows in source order and stops
permanently at the first row whose every field is empty — what it
runs is exactly the prefix of rows before the first fully-null row,
so that row and everything after it are never processed; and on
reaching a terminal row it returns the state it had, leaving the
reconciliation cache and the remote store unchanged. -/
theorem batch_stops_at_first_empty_row :
    (∀ (s : WBState) (rows : List Row),
      process_data s rows =
        run_rows s (rows.takeWhile (fun r => !decide (row_isnull_all r)))) ∧
    (∀ (s : WBState) (r : Row) (rest : List Row), row_isnull_all r →
      process_data s (r :: rest) = Except.ok s) := by
  refine ⟨process_data_eq_run_rows_take, ?_⟩
  intro s r rest h
  simp [process_data, h]

/-- A row whose every field is null — the end-of-data sentinel. -/
def nullRow : Row :=
  { fechaPublicacion := Cell.none, categoriaPublicacion := Cell.none, titulo := Cell.none
    autores := Cell.none, fuente := Cell.none, volumen := Cell.none, numero := Cell.none
    paginaInicial := Cell.none, issn := Cell.none, doi := Cell.none, cuartil := Cell.none
    cuartilCriterio := Cell.none, redFormal := Cell.none, lineasInvestigacion := Cell.none
    nInvAsociados := Cell.none, nInvOtraCategoria := Cell.none, nEstudiantes := Cell.none }

/-- Witness: a batch whose first row is fully null leaves the initial
state untouched, even with further rows behind the sentinel. -/
theorem batch_stops_at_first_empty_row_witness :
    process_data emptyState [nullRow, c2Row] = Except.ok emptyState :=
  batch_stops_at_first_empty_row.2 emptyState nullRow [c2Row] (by decide)
